import Mathlib

/-!
Verification development for the serverless CRUD API of this repository.

The repository ships two Lambda request handlers for the same HTTP surface:

* an in-memory variant (lambda/src/handler.ts), embedded below in
  namespace `Mem`: a router over a process-global `items : Item[]` array,
  seeded with two sample items; and
* a DynamoDB variant (the unnamed TypeScript handler using
  DynamoDBDocumentClient), embedded in namespace `Ddb`: a router whose
  handlers talk to a single table through get/put/scan/update/delete.

Request bodies reach both handlers as `string | null` and are consumed
only through `JSON.parse` followed by destructuring of the `name` and
`description` fields.  The embedding models a body by its parse outcome:
absent (`null`), malformed (parse throws), or an object carrying optional
`name` / `description` string fields.  Clocks (`new Date()` / `Date.now()`)
and the random UUID are passed in explicitly.
-/

/-- Parse outcome of a request body (`string | null` consumed via
`JSON.parse` and destructuring of `name` / `description`). -/
inductive Body where
  | noBody
  | malformed
  | fields (name : Option String) (description : Option String)
deriving Repr, DecidableEq

/-- JavaScript truthiness of an extracted string field: `undefined` and
the empty string are falsy. -/
def truthy : Option String → Bool
  | none => false
  | some s => !(s == "")

/-- JS `s.startsWith(p)`, modelled on the character list (structurally
recursive, so it computes definitionally). -/
def strStartsWith (s p : String) : Bool :=
  List.isPrefixOf p.data s.data

/-- JS `s.split('/')`, modelled on the character list. -/
def splitSlashAux : List Char → List Char → List String
  | [], acc => [String.mk acc.reverse]
  | c :: cs, acc =>
    if c == '/' then String.mk acc.reverse :: splitSlashAux cs []
    else splitSlashAux cs (c :: acc)

/-- JS `s.split('/')`. -/
def splitSlash (s : String) : List String := splitSlashAux s.data []

namespace Mem

/-- Item record of the in-memory variant (all fields strings; timestamps
are ISO-8601 strings). -/
structure Item where
  id : String
  name : String
  description : String
  createdAt : String
  updatedAt : String
deriving Repr, DecidableEq

/-- Seed data: the module-level `items` array starts with two sample
items. -/
def initialItems : List Item :=
  [ { id := "1", name := "Sample Item 1",
      description := "This is a sample item to demonstrate the API",
      createdAt := "2024-01-01T00:00:00Z", updatedAt := "2024-01-01T00:00:00Z" },
    { id := "2", name := "Sample Item 2",
      description := "Another sample item showing CRUD operations",
      createdAt := "2024-01-01T00:00:00Z", updatedAt := "2024-01-01T00:00:00Z" } ]

/-- Shape of the `data` field of the response envelope. -/
inductive Payload where
  | item (it : Item)
  | itemList (items : List Item) (count : Nat)
  | health
deriving Repr, DecidableEq

/-- The `ApiResponse` envelope of the in-memory variant. -/
structure ApiResponse where
  success : Bool
  data : Option Payload
  error : Option String
  message : Option String
deriving Repr, DecidableEq

/-- Envelope for a local validation / not-found failure. -/
def failResp (err msg : String) : ApiResponse :=
  { success := false, data := none, error := some err, message := some msg }

/-- Envelope for a success carrying one item. -/
def okItem (it : Item) (msg : String) : ApiResponse :=
  { success := true, data := some (Payload.item it), error := none, message := some msg }

/-- listItems: returns the array as is, plus its length as `count`. -/
def listItems (items : List Item) : ApiResponse :=
  { success := true,
    data := some (Payload.itemList items items.length),
    error := none,
    message := some "Items retrieved successfully" }

/-- getItem: `items.find(item => item.id === id)`. -/
def getItem (items : List Item) (id : String) : ApiResponse :=
  match items.find? (fun it => it.id == id) with
  | none => failResp "Not Found" ("Item with ID " ++ id ++ " not found")
  | some it => okItem it "Item retrieved successfully"

/-- createItem: body-null check, parse, truthiness check of `name` and
`description`, then pushes a fresh item whose id is
`(items.length + 1).toString()` and whose timestamps are `now`. -/
def createItem (items : List Item) (body : Body) (now : String) :
    ApiResponse × List Item :=
  match body with
  | Body.noBody => (failResp "Bad Request" "Request body is required", items)
  | Body.malformed => (failResp "Bad Request" "Invalid JSON in request body", items)
  | Body.fields name description =>
    if !truthy name || !truthy description then
      (failResp "Bad Request" "Name and description are required", items)
    else
      let newItem : Item :=
        { id := toString (items.length + 1),
          name := name.getD "", description := description.getD "",
          createdAt := now, updatedAt := now }
      (okItem newItem "Item created successfully", items ++ [newItem])

/-- Fallback element for positional access (the source indexes with a
bound already checked via `findIndex`). -/
def dfltItem : Item := { id := "", name := "", description := "", createdAt := "", updatedAt := "" }

/-- updateItem: body-null check, then `findIndex`, then parse; on
success mutates in place the supplied truthy fields and always bumps
`updatedAt` to `now`. -/
def updateItem (items : List Item) (id : String) (body : Body) (now : String) :
    ApiResponse × List Item :=
  match body with
  | Body.noBody => (failResp "Bad Request" "Request body is required", items)
  | Body.malformed =>
    match items.findIdx? (fun it => it.id == id) with
    | none => (failResp "Not Found" ("Item with ID " ++ id ++ " not found"), items)
    | some _ => (failResp "Bad Request" "Invalid JSON in request body", items)
  | Body.fields name description =>
    match items.findIdx? (fun it => it.id == id) with
    | none => (failResp "Not Found" ("Item with ID " ++ id ++ " not found"), items)
    | some i =>
      let old := items.getD i dfltItem
      let upd : Item :=
        { id := old.id,
          name := if truthy name then name.getD "" else old.name,
          description := if truthy description then description.getD "" else old.description,
          createdAt := old.createdAt,
          updatedAt := now }
      (okItem upd "Item updated successfully", items.set i upd)

/-- deleteItem: `findIndex` then `splice(itemIndex, 1)`, returning the
removed item. -/
def deleteItem (items : List Item) (id : String) : ApiResponse × List Item :=
  match items.findIdx? (fun it => it.id == id) with
  | none => (failResp "Not Found" ("Item with ID " ++ id ++ " not found"), items)
  | some i =>
    (okItem (items.getD i dfltItem) "Item deleted successfully", items.eraseIdx i)

/-- handleItemsApi: dispatch on the HTTP method and the truthiness of
`pathParameters?.id`. -/
def handleItemsApi (items : List Item) (method : String) (pathId : Option String)
    (body : Body) (now : String) : ApiResponse × List Item :=
  match method with
  | "GET" =>
    if truthy pathId then (getItem items (pathId.getD ""), items)
    else (listItems items, items)
  | "POST" => createItem items body now
  | "PUT" =>
    if truthy pathId then updateItem items (pathId.getD "") body now
    else (failResp "Bad Request" "Item ID is required for PUT requests", items)
  | "DELETE" =>
    if truthy pathId then deleteItem items (pathId.getD "")
    else (failResp "Bad Request" "Item ID is required for DELETE requests", items)
  | _ => (failResp "Method Not Allowed" ("HTTP method " ++ method ++ " is not supported"), items)

/-- Health-check envelope (process introspection values abstracted by
the `Payload.health` tag). -/
def healthResp : ApiResponse :=
  { success := true, data := some Payload.health, error := none,
    message := some "Service is healthy and operational" }

/-- Body of the HTTP response: either the `ApiResponse` envelope fed to
`createResponse`, or the bare `\x7b message \x7d` literal of the OPTIONS
branch. -/
inductive RespBody where
  | env (e : ApiResponse)
  | corsAck (message : String)
deriving Repr, DecidableEq

/-- The `APIGatewayProxyResult` as far as the claims need it: status
code plus (decoded) body.  The CORS headers are a fixed constant on
every branch and are omitted. -/
structure HttpResult where
  statusCode : Nat
  body : RespBody
deriving Repr, DecidableEq

/-- Top-level handler: OPTIONS short-circuit, then `/health`, then the
`/api/v1/items` prefix (whose result is always wrapped in status 200),
else 404. -/
def handler (items : List Item) (method path : String) (pathId : Option String)
    (body : Body) (now : String) : HttpResult × List Item :=
  if method == "OPTIONS" then
    ({ statusCode := 200, body := RespBody.corsAck "CORS preflight successful" }, items)
  else if path == "/health" then
    ({ statusCode := 200, body := RespBody.env healthResp }, items)
  else if strStartsWith path "/api/v1/items" then
    let r := handleItemsApi items method pathId body now
    ({ statusCode := 200, body := RespBody.env r.1 }, r.2)
  else
    ({ statusCode := 404,
       body := RespBody.env (failResp "Not Found" ("Path " ++ path ++ " not found")) },
     items)

end Mem

namespace Ddb

/-- Table row of the DynamoDB variant.  Rows written by this handler
always carry the attribute `type = "item"`; rows written by anything
else may lack it, so the attribute is optional here — the scan filter
below is the only place the optionality matters. -/
structure DbRecord where
  id : String
  type : Option String
  name : String
  description : String
  createdAt : Nat
  updatedAt : Nat
deriving Repr, DecidableEq

/-- GetCommand on Key id (the table is keyed on `id`). -/
def dbGet (t : List DbRecord) (id : String) : Option DbRecord :=
  t.find? (fun r => r.id == id)

/-- PutCommand: replaces any row with the same key and stores the new
row. -/
def dbPut (t : List DbRecord) (r : DbRecord) : List DbRecord :=
  (t.filter (fun x => !(x.id == r.id))) ++ [r]

/-- DeleteCommand on Key id. -/
def dbDelete (t : List DbRecord) (id : String) : List DbRecord :=
  t.filter (fun x => !(x.id == id))

/-- UpdateCommand on Key id: stores `upd` in place of the row with that
key. -/
def dbUpdate (t : List DbRecord) (id : String) (upd : DbRecord) : List DbRecord :=
  t.map (fun x => if x.id == id then upd else x)

/-- ScanCommand with FilterExpression `#type = :type`, `:type = "item"`:
rows lacking the attribute or carrying another value do not match. -/
def dbScanItems (t : List DbRecord) : List DbRecord :=
  t.filter (fun r => r.type == some "item")

/-- Ordering used by `items.sort((a, b) => b.createdAt - a.createdAt)`:
a before b when b.createdAt ≤ a.createdAt (descending by creation
time).  The ES2019 Array.sort is stable, modelled by a stable sort. -/
def createdDesc (a b : DbRecord) : Prop := b.createdAt ≤ a.createdAt

instance : DecidableRel createdDesc := fun a b => Nat.decLe b.createdAt a.createdAt

instance : IsTotal DbRecord createdDesc :=
  ⟨fun a b => (Nat.le_total b.createdAt a.createdAt).imp id id⟩

instance : IsTrans DbRecord createdDesc :=
  ⟨fun _ _ _ h1 h2 => Nat.le_trans h2 h1⟩

/-- Shape of the `data` field of a response body. -/
inductive DdbData where
  | item (it : DbRecord)
  | items (its : List DbRecord) (count : Nat)
  | health
deriving Repr, DecidableEq

/-- Decoded JSON body handed to `createResponse`.  The route-not-found
body additionally echoes `path` and `method`; the top-level catch
additionally carries `error`. -/
structure DdbBody where
  success : Bool
  message : String
  data : Option DdbData
  error : Option String
  pathEcho : Option String
  methodEcho : Option String
deriving Repr, DecidableEq

/-- Response of `createResponse`: status code plus decoded body (the
fixed CORS headers are omitted). -/
structure DdbResult where
  statusCode : Nat
  body : DdbBody
deriving Repr, DecidableEq

/-- Plain `\x7b success, message \x7d` body. -/
def mkMsg (success : Bool) (message : String) : DdbBody :=
  { success := success, message := message, data := none,
    error := none, pathEcho := none, methodEcho := none }

/-- Body carrying a `data` payload. -/
def mkData (message : String) (d : DdbData) : DdbBody :=
  { success := true, message := message, data := some d,
    error := none, pathEcho := none, methodEcho := none }

/-- JSON.parse of `event.body || '\x7b\x7d'`: a null body parses as the
empty object; a malformed body throws. -/
def parseBody : Body → Except String (Option String × Option String)
  | Body.noBody => Except.ok (none, none)
  | Body.malformed => Except.error "Unexpected token in JSON"
  | Body.fields name description => Except.ok (name, description)

/-- The item collection computed by handleGetItems: scan filtered on
`type = "item"`, then sorted by `createdAt` descending. -/
def listedItems (t : List DbRecord) : List DbRecord :=
  List.insertionSort createdDesc (dbScanItems t)

/-- handleGetItems: scan filtered on `type = "item"`, then sorted by
`createdAt` descending. -/
def handleGetItems (t : List DbRecord) : DdbResult :=
  { statusCode := 200,
    body := mkData "Items retrieved successfully"
      (DdbData.items (listedItems t) (listedItems t).length) }

/-- handleGetItem: GetCommand, 404 when absent. -/
def handleGetItem (t : List DbRecord) (id : String) : DdbResult :=
  match dbGet t id with
  | none => { statusCode := 404, body := mkMsg false "Item not found" }
  | some it =>
    { statusCode := 200, body := mkData "Item retrieved successfully" (DdbData.item it) }

/-- handleCreateItem: parse (may throw), validate truthiness of `name`
and `description`, then PutCommand of a fresh row with `type = "item"`,
a random UUID id (`freshId`) and `createdAt = updatedAt = now`. -/
def handleCreateItem (t : List DbRecord) (body : Body) (now : Nat) (freshId : String) :
    Except String (DdbResult × List DbRecord) :=
  match parseBody body with
  | Except.error e => Except.error e
  | Except.ok (name, description) =>
    if !truthy name || !truthy description then
      Except.ok ({ statusCode := 400,
                   body := mkMsg false "Missing required fields: name and description" }, t)
    else
      let item : DbRecord :=
        { id := freshId, type := some "item",
          name := name.getD "", description := description.getD "",
          createdAt := now, updatedAt := now }
      Except.ok ({ statusCode := 201,
                   body := mkData "Item created successfully" (DdbData.item item) },
                 dbPut t item)

/-- handleUpdateItem: parse (may throw), require at least one truthy
field, check existence, then UpdateCommand setting only the truthy
fields plus `updatedAt = now`; ReturnValues ALL_NEW yields the full
updated row. -/
def handleUpdateItem (t : List DbRecord) (id : String) (body : Body) (now : Nat) :
    Except String (DdbResult × List DbRecord) :=
  match parseBody body with
  | Except.error e => Except.error e
  | Except.ok (name, description) =>
    if !truthy name && !truthy description then
      Except.ok ({ statusCode := 400,
                   body := mkMsg false "At least one field (name or description) must be provided" }, t)
    else
      match dbGet t id with
      | none => Except.ok ({ statusCode := 404, body := mkMsg false "Item not found" }, t)
      | some old =>
        let upd : DbRecord :=
          { id := old.id, type := old.type,
            name := if truthy name then name.getD "" else old.name,
            description := if truthy description then description.getD "" else old.description,
            createdAt := old.createdAt,
            updatedAt := now }
        Except.ok ({ statusCode := 200,
                     body := mkData "Item updated successfully" (DdbData.item upd) },
                   dbUpdate t id upd)

/-- handleDeleteItem: check existence, then DeleteCommand. -/
def handleDeleteItem (t : List DbRecord) (id : String) :
    DdbResult × List DbRecord :=
  match dbGet t id with
  | none => ({ statusCode := 404, body := mkMsg false "Item not found" }, t)
  | some _ =>
    ({ statusCode := 200, body := mkMsg true "Item deleted successfully" }, dbDelete t id)

/-- Health-check response (introspection values abstracted). -/
def ddbHealth : DdbResult :=
  { statusCode := 200,
    body := mkData "Service is healthy and operational" DdbData.health }

/-- The route-not-found response, echoing path and method. -/
def routeNotFound (path method : String) : DdbResult :=
  { statusCode := 404,
    body := { success := false, message := "Route not found", data := none,
              error := none, pathEcho := some path, methodEcho := some method } }

/-- Last path segment: `path.split('/').pop()`. -/
def lastSeg (path : String) : String :=
  (splitSlash path).getLastD ""

/-- Does (method, path) match one of the six routes of the DynamoDB
router?  Mirrors the if-chain of its handler. -/
def routeMatches (method path : String) : Bool :=
  (path == "/health" && method == "GET") ||
  (path == "/api/v1/items" && method == "GET") ||
  (path == "/api/v1/items" && method == "POST") ||
  (strStartsWith path "/api/v1/items/" && method == "GET") ||
  (strStartsWith path "/api/v1/items/" && method == "PUT") ||
  (strStartsWith path "/api/v1/items/" && method == "DELETE")

/-- The try-block of the handler: the if-chain over (path, method). -/
def route (t : List DbRecord) (method path : String) (body : Body)
    (now : Nat) (freshId : String) : Except String (DdbResult × List DbRecord) :=
  if path == "/health" && method == "GET" then Except.ok (ddbHealth, t)
  else if path == "/api/v1/items" && method == "GET" then Except.ok (handleGetItems t, t)
  else if path == "/api/v1/items" && method == "POST" then handleCreateItem t body now freshId
  else if strStartsWith path "/api/v1/items/" && method == "GET" then
    Except.ok (handleGetItem t (lastSeg path), t)
  else if strStartsWith path "/api/v1/items/" && method == "PUT" then
    handleUpdateItem t (lastSeg path) body now
  else if strStartsWith path "/api/v1/items/" && method == "DELETE" then
    Except.ok (handleDeleteItem t (lastSeg path))
  else Except.ok (routeNotFound path method, t)

/-- The 500 response produced by the top-level catch. -/
def internalErr (e : String) : DdbResult :=
  { statusCode := 500,
    body := { success := false, message := "Internal server error", data := none,
              error := some e, pathEcho := none, methodEcho := none } }

/-- Top-level handler: the try-block with its single catch turning any
thrown error into a 500. -/
def handler (t : List DbRecord) (method path : String) (body : Body)
    (now : Nat) (freshId : String) : DdbResult × List DbRecord :=
  match route t method path body now freshId with
  | Except.ok r => r
  | Except.error e => (internalErr e, t)

end Ddb

/-!
Injectivity of `toString : Nat → String`, needed because the in-memory
create handler derives item ids via `(items.length + 1).toString()`.
We relate `Nat.toDigitsCore` to a structurally defined digit list and
invert it by folding the digit values back up.
-/

/-- Decimal digit list of a natural number, most significant digit
first: the list that `Nat.toDigitsCore` accumulates. -/
def digitsList (n : Nat) : List Char :=
  if _h : n < 10 then [Nat.digitChar n]
  else digitsList (n / 10) ++ [Nat.digitChar (n % 10)]
termination_by n
decreasing_by exact Nat.div_lt_self (by omega) (by omega)

/-- Numeric value of a decimal digit character. -/
def charVal (c : Char) : Nat := c.toNat - 48

/-!
Claim theorems.  Concrete sample records used by witnesses.
-/

/-- Sample DynamoDB row, creation time 1. -/
def w1 : Ddb.DbRecord :=
  { id := "a1", type := some "item", name := "n1", description := "d1",
    createdAt := 1, updatedAt := 1 }

/-- Sample DynamoDB row, creation time 2. -/
def w2 : Ddb.DbRecord :=
  { id := "a2", type := some "item", name := "n2", description := "d2",
    createdAt := 2, updatedAt := 2 }

/-- Sample DynamoDB row, creation time 3. -/
def w3 : Ddb.DbRecord :=
  { id := "a3", type := some "item", name := "n3", description := "d3",
    createdAt := 3, updatedAt := 3 }

/-- Sample in-memory items with increasing ISO-8601 creation times. -/
def m1 : Mem.Item :=
  { id := "5", name := "a", description := "b",
    createdAt := "2024-01-01T00:00:00Z", updatedAt := "2024-01-01T00:00:00Z" }

/-- Second sample in-memory item. -/
def m2 : Mem.Item :=
  { id := "6", name := "c", description := "d",
    createdAt := "2024-02-01T00:00:00Z", updatedAt := "2024-02-01T00:00:00Z" }

/-- Third sample in-memory item. -/
def m3 : Mem.Item :=
  { id := "7", name := "e", description := "f",
    createdAt := "2024-03-01T00:00:00Z", updatedAt := "2024-03-01T00:00:00Z" }

/-- Consistency of a DynamoDB-variant response: a response whose
envelope has success = false never carries HTTP status 200. -/
def statusConsistent (r : Ddb.DdbResult) : Prop :=
  r.body.success = false → r.statusCode ≠ 200

/-- The item id carried in a create response, if any. -/
def createdId (r : Mem.ApiResponse) : Option String :=
  match r.data with
  | some (Mem.Payload.item it) => some it.id
  | _ => none

/-- Run a sequence of creates against the in-memory store; each request
carries (name, description, now).  Returns the final store and the ids
carried in the create responses, in order. -/
def runCreates (s : List Mem.Item) : List (String × String × String) → List Mem.Item × List String
  | [] => (s, [])
  | (nm, ds, now) :: rest =>
    let c := Mem.createItem s (Body.fields (some nm) (some ds)) now
    let r := runCreates c.2 rest
    (r.1, ((createdId c.1).getD "") :: r.2)

theorem charVal_digitChar : ∀ r : Nat, r < 10 → charVal (Nat.digitChar r) = r := by decide

theorem decAux_digitsList (n : Nat) : ∀ (a : Nat) (ds : List Char),
    List.foldl (fun x c => 10 * x + charVal c) a (digitsList n ++ ds) =
      List.foldl (fun x c => 10 * x + charVal c) (a * 10 ^ (digitsList n).length + n) ds := by
  induction n using Nat.strong_induction_on with
  | _ n ih =>
    intro a ds
    by_cases h : n < 10
    · rw [digitsList, dif_pos h]
      simp only [List.cons_append, List.nil_append, List.foldl_cons, List.length_cons,
        List.length_nil, pow_one, charVal_digitChar n h]
      congr 1
      ring
    · rw [digitsList, dif_neg h]
      have hq : n / 10 < n := Nat.div_lt_self (by omega) (by omega)
      rw [List.append_assoc, ih (n / 10) hq a _]
      simp only [List.cons_append, List.nil_append, List.foldl_cons, List.length_append,
        List.length_cons, List.length_nil, Nat.zero_add]
      rw [charVal_digitChar (n % 10) (Nat.mod_lt n (by omega))]
      congr 1
      rw [pow_succ, ← Nat.mul_assoc]
      have hdm := Nat.div_add_mod n 10
      have key : ∀ b q r m : Nat, 10 * q + r = m → 10 * (b + q) + r = b * 10 + m := by
        intro b q r m hm
        omega
      exact key (a * 10 ^ (digitsList (n / 10)).length) (n / 10) (n % 10) n hdm

theorem decode_digitsList (n : Nat) :
    List.foldl (fun x c => 10 * x + charVal c) 0 (digitsList n) = n := by
  have h := decAux_digitsList n 0 []
  simpa using h

theorem digitsList_injective : ∀ m n : Nat, digitsList m = digitsList n → m = n := by
  intro m n h
  have hm := decode_digitsList m
  rw [h, decode_digitsList n] at hm
  exact hm.symm

theorem toDigitsCore_eq_digitsList (f : Nat) : ∀ (n : Nat) (ds : List Char), n < f →
    Nat.toDigitsCore 10 f n ds = digitsList n ++ ds := by
  induction f with
  | zero => intro n ds h; omega
  | succ f ih =>
    intro n ds hf
    by_cases hz : n / 10 = 0
    · have hlt : n < 10 := (Nat.div_eq_zero_iff (by omega)).mp hz
      simp only [Nat.toDigitsCore, hz, if_pos]
      rw [digitsList, dif_pos hlt, Nat.mod_eq_of_lt hlt]
      rfl
    · have hpos : 0 < n := Nat.pos_of_ne_zero (fun h0 => hz (by simp [h0]))
      have h10 : ¬ n < 10 := fun hlt => hz ((Nat.div_eq_zero_iff (by omega)).mpr hlt)
      have hq : n / 10 < f :=
        Nat.lt_of_lt_of_le (Nat.div_lt_self hpos (by omega)) (Nat.le_of_lt_succ hf)
      have hstep : Nat.toDigitsCore 10 (f + 1) n ds =
          Nat.toDigitsCore 10 f (n / 10) (Nat.digitChar (n % 10) :: ds) := by
        simp [Nat.toDigitsCore, hz]
      rw [hstep, ih (n / 10) (Nat.digitChar (n % 10) :: ds) hq]
      conv_rhs => rw [digitsList]
      rw [dif_neg h10, List.append_assoc]
      rfl

theorem toDigits_eq_digitsList (n : Nat) : Nat.toDigits 10 n = digitsList n := by
  have h := toDigitsCore_eq_digitsList (n + 1) n [] (Nat.lt_succ_self n)
  simpa [Nat.toDigits] using h

theorem natToString_injective : ∀ m n : Nat, toString m = toString n → m = n := by
  intro m n h
  have h' : (Nat.toDigits 10 m).asString = (Nat.toDigits 10 n).asString := h
  have hl : Nat.toDigits 10 m = Nat.toDigits 10 n := congrArg String.data h'
  rw [toDigits_eq_digitsList, toDigits_eq_digitsList] at hl
  exact digitsList_injective m n hl

/-- Claim C9: a fresh in-memory process starts with two seeded sample
items with ids "1" and "2" and fixed 2024-01-01 timestamps; the first
list request returns count 2, and the first create assigns id "3". -/
theorem c9_seeded_store (now nm ds : String)
    (hnm : (nm == "") = false) (hds : (ds == "") = false) :
    Mem.initialItems.length = 2 ∧
    Mem.initialItems.map Mem.Item.id = ["1", "2"] ∧
    Mem.initialItems.map Mem.Item.createdAt = ["2024-01-01T00:00:00Z", "2024-01-01T00:00:00Z"] ∧
    Mem.initialItems.map Mem.Item.updatedAt = ["2024-01-01T00:00:00Z", "2024-01-01T00:00:00Z"] ∧
    Mem.listItems Mem.initialItems =
      { success := true, data := some (Mem.Payload.itemList Mem.initialItems 2),
        error := none, message := some "Items retrieved successfully" } ∧
    Mem.createItem Mem.initialItems (Body.fields (some nm) (some ds)) now =
      (Mem.okItem { id := "3", name := nm, description := ds, createdAt := now, updatedAt := now }
        "Item created successfully",
       Mem.initialItems ++
         [{ id := "3", name := nm, description := ds, createdAt := now, updatedAt := now }]) := by
  refine ⟨by decide, by decide, by decide, by decide, rfl, ?_⟩
  have hcond : (!truthy (some nm) || !truthy (some ds)) = false := by
    simp [truthy, hnm, hds]
  simp only [Mem.createItem, hcond, Bool.false_eq_true, if_false]
  rfl

/-- Claim C9 witness: the seeded-store facts at a concrete create. -/
theorem c9_witness :
    Mem.initialItems.length = 2 ∧
    Mem.initialItems.map Mem.Item.id = ["1", "2"] ∧
    Mem.initialItems.map Mem.Item.createdAt = ["2024-01-01T00:00:00Z", "2024-01-01T00:00:00Z"] ∧
    Mem.initialItems.map Mem.Item.updatedAt = ["2024-01-01T00:00:00Z", "2024-01-01T00:00:00Z"] ∧
    Mem.listItems Mem.initialItems =
      { success := true, data := some (Mem.Payload.itemList Mem.initialItems 2),
        error := none, message := some "Items retrieved successfully" } ∧
    Mem.createItem Mem.initialItems (Body.fields (some "x") (some "y")) "T" =
      (Mem.okItem { id := "3", name := "x", description := "y", createdAt := "T", updatedAt := "T" }
        "Item created successfully",
       Mem.initialItems ++
         [{ id := "3", name := "x", description := "y", createdAt := "T", updatedAt := "T" }]) :=
  c9_seeded_store "T" "x" "y" (by decide) (by decide)

/-- Claim C2 counterexample: the in-memory list handler does not sort.
For a store of three items created at t1 < t2 < t3 it returns them in
insertion order [t1, t2, t3], not [t3, t2, t1]. -/
theorem c2_counterexample :
    (Mem.listItems [m1, m2, m3]).data = some (Mem.Payload.itemList [m1, m2, m3] 3) ∧
    m1.createdAt.data < m2.createdAt.data ∧ m2.createdAt.data < m3.createdAt.data ∧
    ([m1, m2, m3] : List Mem.Item) ≠ [m3, m2, m1] := by
  refine ⟨rfl, ?_, ?_, by decide⟩ <;> decide

/-- Claim C2 as amended: the DynamoDB list handler returns the
`type = "item"` records sorted by `createdAt` descending together with
their count, an empty store yields an empty collection with count 0,
and three items created at t1 < t2 < t3 come back as [t3, t2, t1]; the
in-memory list handler returns the store in insertion order (unsorted)
with its count. -/
theorem c2_list_sorted_amended :
    (∀ t : List Ddb.DbRecord,
      Ddb.handleGetItems t =
        { statusCode := 200,
          body := Ddb.mkData "Items retrieved successfully"
            (Ddb.DdbData.items (Ddb.listedItems t) (Ddb.listedItems t).length) }) ∧
    (∀ t : List Ddb.DbRecord, List.Sorted Ddb.createdDesc (Ddb.listedItems t)) ∧
    (∀ t : List Ddb.DbRecord, (Ddb.listedItems t).Perm (Ddb.dbScanItems t)) ∧
    Ddb.handleGetItems [] =
      { statusCode := 200,
        body := Ddb.mkData "Items retrieved successfully" (Ddb.DdbData.items [] 0) } ∧
    (∀ r1 r2 r3 : Ddb.DbRecord,
      r1.type = some "item" → r2.type = some "item" → r3.type = some "item" →
      r1.createdAt < r2.createdAt → r2.createdAt < r3.createdAt →
      Ddb.listedItems [r1, r2, r3] = [r3, r2, r1]) ∧
    (∀ s : List Mem.Item,
      Mem.listItems s =
        { success := true, data := some (Mem.Payload.itemList s s.length),
          error := none, message := some "Items retrieved successfully" }) := by
  refine ⟨fun t => rfl, ?_, ?_, rfl, ?_, fun s => rfl⟩
  · exact fun t => List.sorted_insertionSort Ddb.createdDesc (Ddb.dbScanItems t)
  · exact fun t => List.perm_insertionSort Ddb.createdDesc (Ddb.dbScanItems t)
  · intro r1 r2 r3 h1 h2 h3 h12 h23
    have hf : Ddb.dbScanItems [r1, r2, r3] = [r1, r2, r3] := by
      simp [Ddb.dbScanItems, h1, h2, h3]
    have n12 : ¬ Ddb.createdDesc r1 r2 := by simp only [Ddb.createdDesc]; omega
    have n13 : ¬ Ddb.createdDesc r1 r3 := by simp only [Ddb.createdDesc]; omega
    have n23 : ¬ Ddb.createdDesc r2 r3 := by simp only [Ddb.createdDesc]; omega
    simp only [Ddb.listedItems, hf]
    simp [List.insertionSort, List.orderedInsert, n12, n13, n23]

/-- Claim C2 witness: the sort facts at three concrete rows. -/
theorem c2_witness : Ddb.listedItems [w1, w2, w3] = [w3, w2, w1] :=
  c2_list_sorted_amended.2.2.2.2.1 w1 w2 w3 rfl rfl rfl (by decide) (by decide)

theorem getItem_consistent (t : List Ddb.DbRecord) (id : String) :
    statusConsistent (Ddb.handleGetItem t id) := by
  unfold Ddb.handleGetItem
  cases Ddb.dbGet t id <;> simp [statusConsistent, Ddb.mkMsg, Ddb.mkData]

theorem deleteItem_consistent (t : List Ddb.DbRecord) (id : String) :
    statusConsistent (Ddb.handleDeleteItem t id).1 := by
  unfold Ddb.handleDeleteItem
  cases Ddb.dbGet t id <;> simp [statusConsistent, Ddb.mkMsg]

theorem createItem_ok_consistent (t : List Ddb.DbRecord) (b : Body) (now : Nat) (fid : String)
    (r : Ddb.DdbResult × List Ddb.DbRecord) :
    Ddb.handleCreateItem t b now fid = Except.ok r → statusConsistent r.1 := by
  intro h
  unfold Ddb.handleCreateItem at h
  split at h
  · cases h
  · split at h
    · simp only [Except.ok.injEq] at h
      subst h
      simp [statusConsistent, Ddb.mkMsg]
    · simp only [Except.ok.injEq] at h
      subst h
      simp [statusConsistent, Ddb.mkData]

theorem updateItem_ok_consistent (t : List Ddb.DbRecord) (id : String) (b : Body) (now : Nat)
    (r : Ddb.DdbResult × List Ddb.DbRecord) :
    Ddb.handleUpdateItem t id b now = Except.ok r → statusConsistent r.1 := by
  intro h
  unfold Ddb.handleUpdateItem at h
  split at h
  · cases h
  · split at h
    · simp only [Except.ok.injEq] at h
      subst h
      simp [statusConsistent, Ddb.mkMsg]
    · split at h
      · simp only [Except.ok.injEq] at h
        subst h
        simp [statusConsistent, Ddb.mkMsg]
      · simp only [Except.ok.injEq] at h
        subst h
        simp [statusConsistent, Ddb.mkData]

theorem route_ok_consistent (t : List Ddb.DbRecord) (m p : String) (b : Body) (now : Nat)
    (fid : String) (r : Ddb.DdbResult × List Ddb.DbRecord) :
    Ddb.route t m p b now fid = Except.ok r → statusConsistent r.1 := by
  intro h
  unfold Ddb.route at h
  repeat' split at h
  · simp only [Except.ok.injEq] at h; subst h; simp [statusConsistent, Ddb.ddbHealth, Ddb.mkData]
  · simp only [Except.ok.injEq] at h; subst h
    simp [statusConsistent, Ddb.handleGetItems, Ddb.mkData]
  · exact createItem_ok_consistent t b now fid r h
  · simp only [Except.ok.injEq] at h; subst h; exact getItem_consistent t (Ddb.lastSeg p)
  · exact updateItem_ok_consistent t (Ddb.lastSeg p) b now r h
  · simp only [Except.ok.injEq] at h; subst h; exact deleteItem_consistent t (Ddb.lastSeg p)
  · simp only [Except.ok.injEq] at h; subst h; simp [statusConsistent, Ddb.routeNotFound]

theorem handler_consistent (t : List Ddb.DbRecord) (m p : String) (b : Body) (now : Nat)
    (fid : String) : statusConsistent (Ddb.handler t m p b now fid).1 := by
  unfold Ddb.handler
  cases hr : Ddb.route t m p b now fid with
  | ok r => exact route_ok_consistent t m p b now fid r hr
  | error e => simp [statusConsistent, Ddb.internalErr]

/-- Claim C1 as amended: in the DynamoDB variant the status code matches
the outcome — success:false responses never carry status 200, absent ids
yield 404 on get/update/delete, and validation failures yield 400 — while
the in-memory variant answers every request under the /api/v1/items
prefix with HTTP 200, recording failures only in the envelope. -/
theorem c1_status_amended :
    (∀ (t : List Ddb.DbRecord) (m p : String) (b : Body) (now : Nat) (fid : String),
      statusConsistent (Ddb.handler t m p b now fid).1) ∧
    (∀ (t : List Ddb.DbRecord) (id : String), Ddb.dbGet t id = none →
      Ddb.handleGetItem t id = { statusCode := 404, body := Ddb.mkMsg false "Item not found" }) ∧
    (∀ (t : List Ddb.DbRecord) (id : String) (nm ds : Option String) (now : Nat),
      Ddb.dbGet t id = none → (truthy nm || truthy ds) = true →
      Ddb.handleUpdateItem t id (Body.fields nm ds) now =
        Except.ok ({ statusCode := 404, body := Ddb.mkMsg false "Item not found" }, t)) ∧
    (∀ (t : List Ddb.DbRecord) (id : String), Ddb.dbGet t id = none →
      Ddb.handleDeleteItem t id =
        ({ statusCode := 404, body := Ddb.mkMsg false "Item not found" }, t)) ∧
    (∀ (t : List Ddb.DbRecord) (nm ds : Option String) (now : Nat) (fid : String),
      (truthy nm && truthy ds) = false →
      Ddb.handleCreateItem t (Body.fields nm ds) now fid =
        Except.ok ({ statusCode := 400,
                     body := Ddb.mkMsg false "Missing required fields: name and description" }, t)) ∧
    (∀ (s : List Mem.Item) (m p : String) (pid : Option String) (b : Body) (now : String),
      strStartsWith p "/api/v1/items" = true →
      (Mem.handler s m p pid b now).1.statusCode = 200) := by
  refine ⟨handler_consistent, ?_, ?_, ?_, ?_, ?_⟩
  · intro t id hg
    unfold Ddb.handleGetItem
    rw [hg]
  · intro t id nm ds now hg hv
    have hcond : (!truthy nm && !truthy ds) = false := by
      rw [← Bool.not_or, hv]; rfl
    simp only [Ddb.handleUpdateItem, Ddb.parseBody, hcond, Bool.false_eq_true, if_false, hg]
  · intro t id hg
    unfold Ddb.handleDeleteItem
    rw [hg]
  · intro t nm ds now fid hv
    have hcond : (!truthy nm || !truthy ds) = true := by
      rw [← Bool.not_and, hv]; rfl
    simp only [Ddb.handleCreateItem, Ddb.parseBody, hcond, if_true]
  · intro s m p pid b now hp
    unfold Mem.handler
    split
    · rfl
    · split
      · rfl
      · rfl

/-- Claim C1 witness: the amended facts at concrete inputs. -/
theorem c1_witness :
    Ddb.handleGetItem [] "9" = { statusCode := 404, body := Ddb.mkMsg false "Item not found" } ∧
    Ddb.handleUpdateItem [] "9" (Body.fields (some "x") none) 0 =
      Except.ok ({ statusCode := 404, body := Ddb.mkMsg false "Item not found" }, []) ∧
    Ddb.handleDeleteItem [] "9" =
      ({ statusCode := 404, body := Ddb.mkMsg false "Item not found" }, []) ∧
    Ddb.handleCreateItem [] (Body.fields none none) 0 "u" =
      Except.ok ({ statusCode := 400,
                   body := Ddb.mkMsg false "Missing required fields: name and description" }, []) ∧
    (Mem.handler Mem.initialItems "GET" "/api/v1/items" none Body.noBody "T").1.statusCode = 200 :=
  ⟨c1_status_amended.2.1 [] "9" rfl,
   c1_status_amended.2.2.1 [] "9" (some "x") none 0 rfl rfl,
   c1_status_amended.2.2.2.1 [] "9" rfl,
   c1_status_amended.2.2.2.2.1 [] none none 0 "u" rfl,
   c1_status_amended.2.2.2.2.2 Mem.initialItems "GET" "/api/v1/items" none Body.noBody "T" rfl⟩

/-- Claim C1 counterexample: in the in-memory variant, a GET for the
absent id 999 is answered with HTTP status 200 even though the envelope
has success = false (the claim demands 404 and forbids 200 here). -/
theorem c1_counterexample :
    (Mem.handler Mem.initialItems "GET" "/api/v1/items/999" (some "999") Body.noBody "T").1 =
      { statusCode := 200,
        body := Mem.RespBody.env (Mem.failResp "Not Found" "Item with ID 999 not found") } ∧
    (Mem.failResp "Not Found" "Item with ID 999 not found").success = false :=
  ⟨rfl, rfl⟩

/-- Claim C4 counterexample: in the in-memory variant an update of the
existing item 1 whose body has neither field is answered with HTTP 200,
reports success, and mutates the store (updatedAt is bumped) — not the
claimed 400 with no mutation. -/
theorem c4_counterexample :
    (Mem.handler Mem.initialItems "PUT" "/api/v1/items/1" (some "1")
      (Body.fields none none) "2025-06-01T00:00:00Z").1.statusCode = 200 ∧
    (Mem.updateItem Mem.initialItems "1" (Body.fields none none)
      "2025-06-01T00:00:00Z").1.success = true ∧
    (Mem.updateItem Mem.initialItems "1" (Body.fields none none)
      "2025-06-01T00:00:00Z").2 ≠ Mem.initialItems :=
  ⟨rfl, rfl, by decide⟩

/-- Claim C4 as amended: in the DynamoDB variant an update whose body
contains neither a non-empty name nor a non-empty description returns
400 and leaves the table unchanged (also for a null body, which parses
as the empty object); the in-memory variant has no such check — the
update succeeds, leaves name and description unchanged, but always bumps
updatedAt to now. -/
theorem c4_empty_update_amended :
    (∀ (t : List Ddb.DbRecord) (id : String) (nm ds : Option String) (now : Nat),
      truthy nm = false → truthy ds = false →
      Ddb.handleUpdateItem t id (Body.fields nm ds) now =
        Except.ok
          ({ statusCode := 400,
             body := Ddb.mkMsg false "At least one field (name or description) must be provided" },
           t)) ∧
    (∀ (t : List Ddb.DbRecord) (id : String) (now : Nat),
      Ddb.handleUpdateItem t id Body.noBody now =
        Except.ok
          ({ statusCode := 400,
             body := Ddb.mkMsg false "At least one field (name or description) must be provided" },
           t)) ∧
    (∀ (s : List Mem.Item) (id : String) (i : Nat) (nm ds : Option String) (now : String),
      s.findIdx? (fun it => it.id == id) = some i →
      truthy nm = false → truthy ds = false →
      Mem.updateItem s id (Body.fields nm ds) now =
        (Mem.okItem
          { id := (s.getD i Mem.dfltItem).id, name := (s.getD i Mem.dfltItem).name,
            description := (s.getD i Mem.dfltItem).description,
            createdAt := (s.getD i Mem.dfltItem).createdAt, updatedAt := now }
          "Item updated successfully",
         s.set i
          { id := (s.getD i Mem.dfltItem).id, name := (s.getD i Mem.dfltItem).name,
            description := (s.getD i Mem.dfltItem).description,
            createdAt := (s.getD i Mem.dfltItem).createdAt, updatedAt := now })) := by
  refine ⟨?_, ?_, ?_⟩
  · intro t id nm ds now hnm hds
    have hcond : (!truthy nm && !truthy ds) = true := by rw [hnm, hds]; rfl
    simp only [Ddb.handleUpdateItem, Ddb.parseBody, hcond, if_true]
  · intro t id now
    rfl
  · intro s id i nm ds now hidx hnm hds
    simp only [Mem.updateItem, hidx, hnm, hds, Bool.false_eq_true, if_false]

/-- Claim C4 witness: the amended facts at concrete inputs. -/
theorem c4_witness :
    Ddb.handleUpdateItem [w1] "a1" (Body.fields none (some "")) 9 =
      Except.ok
        ({ statusCode := 400,
           body := Ddb.mkMsg false "At least one field (name or description) must be provided" },
         [w1]) ∧
    Mem.updateItem Mem.initialItems "1" (Body.fields none none) "T9" =
      (Mem.okItem
        { id := "1", name := "Sample Item 1",
          description := "This is a sample item to demonstrate the API",
          createdAt := "2024-01-01T00:00:00Z", updatedAt := "T9" }
        "Item updated successfully",
       Mem.initialItems.set 0
        { id := "1", name := "Sample Item 1",
          description := "This is a sample item to demonstrate the API",
          createdAt := "2024-01-01T00:00:00Z", updatedAt := "T9" }) :=
  ⟨c4_empty_update_amended.1 [w1] "a1" none (some "") 9 rfl rfl,
   c4_empty_update_amended.2.2 Mem.initialItems "1" 0 none none "T9" rfl rfl rfl⟩

/-- Claim C5 counterexample: the DynamoDB create handler answers a
malformed JSON body with HTTP 500, not the claimed 400. -/
theorem c5_counterexample :
    (Ddb.handler [] "POST" "/api/v1/items" Body.malformed 0 "u").1.statusCode = 500 ∧
    (Ddb.handler [] "POST" "/api/v1/items" Body.malformed 0 "u").1.statusCode ≠ 400 :=
  ⟨rfl, by decide⟩

/-- Claim C5 as amended: a malformed JSON body never persists or
mutates anything in either variant, but neither returns HTTP 400: the
in-memory create/update return a Bad Request envelope that the router
wraps in HTTP 200, while the DynamoDB create/update rethrow the parse
error so the top-level catch returns HTTP 500. -/
theorem c5_malformed_amended :
    (∀ (s : List Mem.Item) (now : String),
      Mem.createItem s Body.malformed now =
        (Mem.failResp "Bad Request" "Invalid JSON in request body", s)) ∧
    (∀ (s : List Mem.Item) (id : String) (now : String),
      (Mem.updateItem s id Body.malformed now).2 = s ∧
      (Mem.updateItem s id Body.malformed now).1.success = false) ∧
    (∀ (s : List Mem.Item) (pid : Option String) (now : String),
      Mem.handler s "POST" "/api/v1/items" pid Body.malformed now =
        ({ statusCode := 200,
           body := Mem.RespBody.env (Mem.failResp "Bad Request" "Invalid JSON in request body") },
         s)) ∧
    (∀ (t : List Ddb.DbRecord) (now : Nat) (fid : String),
      Ddb.handler t "POST" "/api/v1/items" Body.malformed now fid =
        (Ddb.internalErr "Unexpected token in JSON", t)) ∧
    (∀ (t : List Ddb.DbRecord) (p : String) (now : Nat) (fid : String),
      strStartsWith p "/api/v1/items/" = true →
      Ddb.handler t "PUT" p Body.malformed now fid =
        (Ddb.internalErr "Unexpected token in JSON", t)) := by
  refine ⟨fun s now => rfl, ?_, fun s pid now => rfl, fun t now fid => rfl, ?_⟩
  · intro s id now
    rcases hidx : s.findIdx? (fun it => it.id == id) with _ | i <;>
      simp [Mem.updateItem, hidx, Mem.failResp]
  · intro t p now fid hp
    unfold Ddb.handler Ddb.route
    simp only [hp, show ("PUT" == "GET") = false from rfl,
      show ("PUT" == "POST") = false from rfl, show ("PUT" == "PUT") = true from rfl,
      Bool.and_false, Bool.and_true, Bool.true_and,
      Bool.false_eq_true, if_false, if_true]
    rfl

/-- Claim C6 counterexample: the DynamoDB router answers an OPTIONS
request to the items path with 404, not the claimed 200. -/
theorem c6_counterexample :
    (Ddb.handler [] "OPTIONS" "/api/v1/items" Body.noBody 0 "u").1.statusCode = 404 ∧
    (Ddb.handler [] "OPTIONS" "/api/v1/items" Body.noBody 0 "u").1.statusCode ≠ 200 :=
  ⟨rfl, by decide⟩

/-- Claim C6 as amended: in the in-memory variant every OPTIONS
request, regardless of path, returns status 200 with the CORS preflight
acknowledgement; the DynamoDB router has no OPTIONS branch, so every
OPTIONS request falls through to the 404 route-not-found response. -/
theorem c6_options_amended :
    (∀ (s : List Mem.Item) (p : String) (pid : Option String) (b : Body) (now : String),
      Mem.handler s "OPTIONS" p pid b now =
        ({ statusCode := 200, body := Mem.RespBody.corsAck "CORS preflight successful" }, s)) ∧
    (∀ (t : List Ddb.DbRecord) (p : String) (b : Body) (now : Nat) (fid : String),
      Ddb.handler t "OPTIONS" p b now fid = (Ddb.routeNotFound p "OPTIONS", t)) ∧
    (∀ p m : String, (Ddb.routeNotFound p m).statusCode = 404) := by
  refine ⟨fun s p pid b now => rfl, ?_, fun p m => rfl⟩
  intro t p b now fid
  unfold Ddb.handler Ddb.route
  simp only [show ("OPTIONS" == "GET") = false from rfl,
    show ("OPTIONS" == "POST") = false from rfl, show ("OPTIONS" == "PUT") = false from rfl,
    show ("OPTIONS" == "DELETE") = false from rfl,
    Bool.and_false, Bool.false_eq_true, if_false]

/-- Claim C7 counterexample: the in-memory router answers the
route-less request PATCH /api/v1/items with HTTP 200 and a Method Not
Allowed envelope, not the claimed 404 route-not-found envelope. -/
theorem c7_counterexample :
    (Mem.handler Mem.initialItems "PATCH" "/api/v1/items" none Body.noBody "T").1.statusCode = 200 ∧
    (Mem.handler Mem.initialItems "PATCH" "/api/v1/items" none Body.noBody "T").1.body =
      Mem.RespBody.env (Mem.failResp "Method Not Allowed" "HTTP method PATCH is not supported") ∧
    (Mem.handler Mem.initialItems "PATCH" "/api/v1/items" none Body.noBody "T").1.statusCode ≠ 404 :=
  ⟨rfl, rfl, by decide⟩

/-- Claim C7 as amended: the DynamoDB router returns 404 with
envelope success:false, message "Route not found", echoing path and
method, for every method+path matching none of its routes; the
in-memory router returns 404 only for paths outside /health and the
/api/v1/items prefix, with a different envelope and no echo fields. -/
theorem c7_route_not_found_amended :
    (∀ (t : List Ddb.DbRecord) (m p : String) (b : Body) (now : Nat) (fid : String),
      Ddb.routeMatches m p = false →
      Ddb.handler t m p b now fid = (Ddb.routeNotFound p m, t)) ∧
    (∀ p m : String,
      Ddb.routeNotFound p m =
        { statusCode := 404,
          body := { success := false, message := "Route not found", data := none,
                    error := none, pathEcho := some p, methodEcho := some m } }) ∧
    (∀ (s : List Mem.Item) (m p : String) (pid : Option String) (b : Body) (now : String),
      (m == "OPTIONS") = false → (p == "/health") = false →
      strStartsWith p "/api/v1/items" = false →
      Mem.handler s m p pid b now =
        ({ statusCode := 404,
           body := Mem.RespBody.env (Mem.failResp "Not Found" ("Path " ++ p ++ " not found")) },
         s)) := by
  refine ⟨?_, fun p m => rfl, ?_⟩
  · intro t m p b now fid h
    unfold Ddb.routeMatches at h
    simp only [Bool.or_eq_false_iff] at h
    obtain ⟨⟨⟨⟨⟨h1, h2⟩, h3⟩, h4⟩, h5⟩, h6⟩ := h
    unfold Ddb.handler Ddb.route
    simp only [h1, h2, h3, h4, h5, h6, Bool.false_eq_true, if_false]
  · intro s m p pid b now hm hp hsw
    unfold Mem.handler
    simp only [hm, hp, hsw, Bool.false_eq_true, if_false]

/-- Claim C7 witness: the amended facts at concrete requests. -/
theorem c7_witness :
    Ddb.handler [] "PATCH" "/nope" Body.noBody 0 "u" = (Ddb.routeNotFound "/nope" "PATCH", []) ∧
    Mem.handler Mem.initialItems "GET" "/unknown-path" none Body.noBody "T" =
      ({ statusCode := 404,
         body := Mem.RespBody.env (Mem.failResp "Not Found" "Path /unknown-path not found") },
       Mem.initialItems) :=
  ⟨c7_route_not_found_amended.1 [] "PATCH" "/nope" Body.noBody 0 "u" rfl,
   c7_route_not_found_amended.2.2 Mem.initialItems "GET" "/unknown-path" none Body.noBody "T"
     rfl rfl rfl⟩

/-- Claim C5 witness: the DynamoDB PUT route at a concrete path. -/
theorem c5_witness :
    Ddb.handler [] "PUT" "/api/v1/items/1" Body.malformed 0 "u" =
      (Ddb.internalErr "Unexpected token in JSON", []) :=
  c5_malformed_amended.2.2.2.2 [] "/api/v1/items/1" 0 "u" rfl

/-- Claim C8: in both variants, a successful update of an existing
item with only one field supplied replaces exactly that field, leaves
the other unchanged along with id and createdAt, sets updatedAt to now,
and returns the full updated item. -/
theorem c8_update_partiality :
    (∀ (s : List Mem.Item) (id : String) (i : Nat) (nm now : String),
      s.findIdx? (fun it => it.id == id) = some i → (nm == "") = false →
      Mem.updateItem s id (Body.fields (some nm) none) now =
        (Mem.okItem
          { id := (s.getD i Mem.dfltItem).id, name := nm,
            description := (s.getD i Mem.dfltItem).description,
            createdAt := (s.getD i Mem.dfltItem).createdAt, updatedAt := now }
          "Item updated successfully",
         s.set i
          { id := (s.getD i Mem.dfltItem).id, name := nm,
            description := (s.getD i Mem.dfltItem).description,
            createdAt := (s.getD i Mem.dfltItem).createdAt, updatedAt := now })) ∧
    (∀ (s : List Mem.Item) (id : String) (i : Nat) (ds now : String),
      s.findIdx? (fun it => it.id == id) = some i → (ds == "") = false →
      Mem.updateItem s id (Body.fields none (some ds)) now =
        (Mem.okItem
          { id := (s.getD i Mem.dfltItem).id, name := (s.getD i Mem.dfltItem).name,
            description := ds,
            createdAt := (s.getD i Mem.dfltItem).createdAt, updatedAt := now }
          "Item updated successfully",
         s.set i
          { id := (s.getD i Mem.dfltItem).id, name := (s.getD i Mem.dfltItem).name,
            description := ds,
            createdAt := (s.getD i Mem.dfltItem).createdAt, updatedAt := now })) ∧
    (∀ (t : List Ddb.DbRecord) (id : String) (old : Ddb.DbRecord) (nm : String) (now : Nat),
      Ddb.dbGet t id = some old → (nm == "") = false →
      Ddb.handleUpdateItem t id (Body.fields (some nm) none) now =
        Except.ok
          ({ statusCode := 200,
             body := Ddb.mkData "Item updated successfully"
               (Ddb.DdbData.item
                 { id := old.id, type := old.type, name := nm,
                   description := old.description,
                   createdAt := old.createdAt, updatedAt := now }) },
           Ddb.dbUpdate t id
             { id := old.id, type := old.type, name := nm,
               description := old.description,
               createdAt := old.createdAt, updatedAt := now })) ∧
    (∀ (t : List Ddb.DbRecord) (id : String) (old : Ddb.DbRecord) (ds : String) (now : Nat),
      Ddb.dbGet t id = some old → (ds == "") = false →
      Ddb.handleUpdateItem t id (Body.fields none (some ds)) now =
        Except.ok
          ({ statusCode := 200,
             body := Ddb.mkData "Item updated successfully"
               (Ddb.DdbData.item
                 { id := old.id, type := old.type, name := old.name,
                   description := ds,
                   createdAt := old.createdAt, updatedAt := now }) },
           Ddb.dbUpdate t id
             { id := old.id, type := old.type, name := old.name,
               description := ds,
               createdAt := old.createdAt, updatedAt := now })) := by
  refine ⟨?_, ?_, ?_, ?_⟩
  · intro s id i nm now hidx hnm
    have ht : truthy (some nm) = true := by simp [truthy, hnm]
    simp only [Mem.updateItem, hidx, ht, show truthy none = false from rfl, if_true,
      Bool.false_eq_true, if_false, Option.getD_some]
  · intro s id i ds now hidx hds
    have ht : truthy (some ds) = true := by simp [truthy, hds]
    simp only [Mem.updateItem, hidx, ht, show truthy none = false from rfl, if_true,
      Bool.false_eq_true, if_false, Option.getD_some]
  · intro t id old nm now hg hnm
    have ht : truthy (some nm) = true := by simp [truthy, hnm]
    have hcond : (!truthy (some nm) && !truthy (none : Option String)) = false := by
      rw [ht]; rfl
    simp only [Ddb.handleUpdateItem, Ddb.parseBody, hcond, Bool.false_eq_true, if_false, hg,
      ht, show truthy none = false from rfl, if_true, Option.getD_some]
    rfl
  · intro t id old ds now hg hds
    have ht : truthy (some ds) = true := by simp [truthy, hds]
    have hcond : (!truthy (none : Option String) && !truthy (some ds)) = false := by
      rw [ht]; simp
    simp only [Ddb.handleUpdateItem, Ddb.parseBody, hcond, Bool.false_eq_true, if_false, hg,
      ht, show truthy none = false from rfl, if_true, Option.getD_some]
    rfl

/-- Claim C8 witness: partial updates at concrete stores. -/
theorem c8_witness :
    Mem.updateItem Mem.initialItems "1" (Body.fields (some "NewName") none) "T8" =
      (Mem.okItem
        { id := "1", name := "NewName",
          description := "This is a sample item to demonstrate the API",
          createdAt := "2024-01-01T00:00:00Z", updatedAt := "T8" }
        "Item updated successfully",
       Mem.initialItems.set 0
        { id := "1", name := "NewName",
          description := "This is a sample item to demonstrate the API",
          createdAt := "2024-01-01T00:00:00Z", updatedAt := "T8" }) ∧
    Ddb.handleUpdateItem [w1] "a1" (Body.fields none (some "NewDesc")) 8 =
      Except.ok
        ({ statusCode := 200,
           body := Ddb.mkData "Item updated successfully"
             (Ddb.DdbData.item
               { id := "a1", type := some "item", name := "n1", description := "NewDesc",
                 createdAt := 1, updatedAt := 8 }) },
         Ddb.dbUpdate [w1] "a1"
           { id := "a1", type := some "item", name := "n1", description := "NewDesc",
             createdAt := 1, updatedAt := 8 }) :=
  ⟨c8_update_partiality.1 Mem.initialItems "1" 0 "NewName" "T8" rfl rfl,
   c8_update_partiality.2.2.2 [w1] "a1" w1 "NewDesc" 8 rfl rfl⟩

theorem createItem_valid (s : List Mem.Item) (nm ds now : String)
    (hnm : (nm == "") = false) (hds : (ds == "") = false) :
    Mem.createItem s (Body.fields (some nm) (some ds)) now =
      (Mem.okItem
        { id := toString (s.length + 1), name := nm, description := ds,
          createdAt := now, updatedAt := now } "Item created successfully",
       s ++ [{ id := toString (s.length + 1), name := nm, description := ds,
               createdAt := now, updatedAt := now }]) := by
  have hcond : (!truthy (some nm) || !truthy (some ds)) = false := by
    simp [truthy, hnm, hds]
  simp only [Mem.createItem, hcond, Bool.false_eq_true, if_false]
  rfl

/-- Claim C3 as amended: for any sequence of valid creates with no
interleaved deletes, the in-memory handler assigns the ids
toString(L+1), ..., toString(L+N) (L the starting store size), which are
pairwise distinct. -/
theorem c3_create_ids_amended (s : List Mem.Item) (reqs : List (String × String × String))
    (hv : ∀ q ∈ reqs, (q.1 == "") = false ∧ (q.2.1 == "") = false) :
    (runCreates s reqs).2 =
      (List.range reqs.length).map (fun k => toString (s.length + 1 + k)) ∧
    ((runCreates s reqs).2).Nodup := by
  have hids : ∀ (s : List Mem.Item) (reqs : List (String × String × String)),
      (∀ q ∈ reqs, (q.1 == "") = false ∧ (q.2.1 == "") = false) →
      (runCreates s reqs).2 =
        (List.range reqs.length).map (fun k => toString (s.length + 1 + k)) := by
    intro s reqs
    induction reqs generalizing s with
    | nil => intro _; simp [runCreates]
    | cons q rest ih =>
      intro hv
      obtain ⟨nm, ds, now⟩ := q
      obtain ⟨hnm, hds⟩ := hv (nm, ds, now) (List.mem_cons_self _ _)
      have hv2 : ∀ q ∈ rest, (q.1 == "") = false ∧ (q.2.1 == "") = false :=
        fun q hq => hv q (List.mem_cons_of_mem _ hq)
      simp only [runCreates, createItem_valid s nm ds now hnm hds]
      rw [ih _ hv2]
      simp only [List.length_append, List.length_cons, List.length_nil, List.length_range,
        Nat.zero_add]
      rw [List.range_succ_eq_map, List.map_cons, List.map_map]
      have hfun : ((fun k => toString (s.length + 1 + k)) ∘ Nat.succ) =
          (fun k => toString (s.length + 1 + 1 + k)) := by
        funext k
        simp only [Function.comp_apply]
        congr 1
        omega
      rw [hfun]
      rfl
  refine ⟨hids s reqs hv, ?_⟩
  rw [hids s reqs hv]
  have hinj : Function.Injective (fun k => toString (s.length + 1 + k)) := by
    intro a b hab
    have := natToString_injective _ _ hab
    omega
  exact (List.nodup_range _).map hinj

/-- Claim C3 witness: two creates from the seeded store yield the
distinct ids 3 and 4. -/
theorem c3_witness :
    (runCreates Mem.initialItems [("a", "b", "t"), ("c", "d", "u")]).2 = ["3", "4"] ∧
    ((runCreates Mem.initialItems [("a", "b", "t"), ("c", "d", "u")]).2).Nodup := by
  exact c3_create_ids_amended Mem.initialItems [("a", "b", "t"), ("c", "d", "u")] (by decide)

/-- Claim C3 counterexample: deleting item 1 from the seeded store and
then creating assigns id (length+1) = "2", which collides with the live
item 2 — live ids are no longer pairwise distinct, refuting uniqueness
under sequences interleaved with deletes. -/
theorem c3_counterexample :
    ((Mem.createItem (Mem.deleteItem Mem.initialItems "1").2
        (Body.fields (some "x") (some "y")) "T").2).map Mem.Item.id = ["2", "2"] ∧
    ¬ (((Mem.createItem (Mem.deleteItem Mem.initialItems "1").2
        (Body.fields (some "x") (some "y")) "T").2).map Mem.Item.id).Nodup :=
  ⟨by decide, by decide⟩

/-- Claim C10: every item written by the DynamoDB create handler
carries type = "item", the list handler returns exactly the table
records with type = "item" (records lacking it are never returned), and
a successfully created item is visible to a subsequent list. -/
theorem c10_type_attribute :
    (∀ (t : List Ddb.DbRecord) (nm ds : String) (now : Nat) (fid : String),
      (nm == "") = false → (ds == "") = false →
      Ddb.handleCreateItem t (Body.fields (some nm) (some ds)) now fid =
        Except.ok
          ({ statusCode := 201,
             body := Ddb.mkData "Item created successfully"
               (Ddb.DdbData.item
                 { id := fid, type := some "item", name := nm, description := ds,
                   createdAt := now, updatedAt := now }) },
           Ddb.dbPut t
             { id := fid, type := some "item", name := nm, description := ds,
               createdAt := now, updatedAt := now })) ∧
    (∀ (t : List Ddb.DbRecord) (r : Ddb.DbRecord),
      r ∈ Ddb.listedItems t ↔ (r ∈ t ∧ r.type = some "item")) ∧
    (∀ (t : List Ddb.DbRecord) (nm ds : String) (now : Nat) (fid : String),
      ({ id := fid, type := some "item", name := nm, description := ds,
         createdAt := now, updatedAt := now } : Ddb.DbRecord) ∈
        Ddb.listedItems (Ddb.dbPut t
          { id := fid, type := some "item", name := nm, description := ds,
            createdAt := now, updatedAt := now })) := by
  have hmem : ∀ (t : List Ddb.DbRecord) (r : Ddb.DbRecord),
      r ∈ Ddb.listedItems t ↔ (r ∈ t ∧ r.type = some "item") := by
    intro t r
    rw [Ddb.listedItems]
    rw [(List.perm_insertionSort Ddb.createdDesc (Ddb.dbScanItems t)).mem_iff]
    simp [Ddb.dbScanItems, List.mem_filter]
  refine ⟨?_, hmem, ?_⟩
  · intro t nm ds now fid hnm hds
    have hcond : (!truthy (some nm) || !truthy (some ds)) = false := by
      simp [truthy, hnm, hds]
    simp only [Ddb.handleCreateItem, Ddb.parseBody, hcond, Bool.false_eq_true, if_false]
    rfl
  · intro t nm ds now fid
    rw [hmem]
    refine ⟨?_, rfl⟩
    exact List.mem_append_right _ (List.mem_singleton_self _)

/-- Claim C10 witness: the create and the scan-filter facts at
concrete rows. -/
theorem c10_witness :
    Ddb.handleCreateItem [] (Body.fields (some "n") (some "d")) 7 "u7" =
      Except.ok
        ({ statusCode := 201,
           body := Ddb.mkData "Item created successfully"
             (Ddb.DdbData.item
               { id := "u7", type := some "item", name := "n", description := "d",
                 createdAt := 7, updatedAt := 7 }) },
         Ddb.dbPut []
           { id := "u7", type := some "item", name := "n", description := "d",
             createdAt := 7, updatedAt := 7 }) ∧
    (w1 ∈ Ddb.listedItems [w1] ↔ (w1 ∈ [w1] ∧ w1.type = some "item")) :=
  ⟨c10_type_attribute.1 [] "n" "d" 7 "u7" rfl rfl,
   c10_type_attribute.2.1 [w1] w1⟩
